import Mathlib

/-!
Verification of the routing and filtering layer of a read-only HTTP JSON API
(src/index.js). The three data tables are loaded once at startup; every
request is dispatched on its path segments to a handler that only reads the
tables. The shallow embedding below translates each route handler into a
Lean function over an explicit `Dataset`; the nondeterminism of
`Math.random()` is modelled by an oracle argument `r : Nat`, and the
possibility of an uncaught JavaScript exception is modelled by returning
`Except String Response` from the dispatcher (an `error` value stands for an
uncaught exception such as a `ReferenceError`).
-/

/-- A character record: `id` and `name` as used by the handlers, plus the
stringified values of the remaining descriptive fields (the substring filter
iterates all field values of a record, stringified). -/
structure Character where
  id : Int
  name : String
  extra : List String
deriving Repr, DecidableEq

/-- An episode record: `id` and `season` as used by the handlers, plus the
stringified values of the remaining fields. -/
structure Episode where
  id : Int
  season : Int
  extra : List String
deriving Repr, DecidableEq

/-- A quote record: `id`, free-text `character` name and `text`, plus the
stringified values of the remaining fields. -/
structure Quote where
  id : Int
  character : String
  text : String
  extra : List String
deriving Repr, DecidableEq

/-- The three in-memory tables populated by `loadData` before the server
starts. -/
structure Dataset where
  characters : List Character
  episodes : List Episode
  quotes : List Quote
deriving Repr, DecidableEq

/-- HTTP method as the dispatcher distinguishes it: `OPTIONS` preflight,
`GET`, or anything else (rejected with 405). -/
inductive Method where
  | GET
  | OPTIONS
  | other (name : String)
deriving Repr, DecidableEq

/-- Scalar query parameters as the handlers read them: `search`, `season`
and `character`; `none` models an absent parameter. `url.parse` yields a
plain string for a key given at most once; a repeated key yields an array
of strings instead, which this structure does not represent — the full
query model, including array values and the uncaught `TypeError` they
trigger, is `QueryParamsJS` below, and `liftQuery` embeds this scalar
restriction into it. -/
structure QueryParams where
  search : Option String
  season : Option String
  character : Option String
deriving Repr, DecidableEq

/-- The responses the server can produce. `errorResp status msg` models
`sendError`, which sends the JSON envelope with an `error` field equal to
`msg` under the given HTTP status. The list and bare-record constructors
model `sendJSON` of the corresponding payload with status 200. `emptyBody`
models `sendJSON(res, undefined)`: `JSON.stringify(undefined)` is
`undefined`, so `res.end` sends a 200 response with an empty body. -/
inductive Response where
  | optionsPre
  | docs
  | errorResp (status : Nat) (message : String)
  | charList (total : Nat) (items : List Character)
  | charBare (c : Character)
  | charWithQuotes (c : Character) (qs : List Quote)
  | epList (total : Nat) (items : List Episode)
  | epBare (e : Episode)
  | quoteList (total : Nat) (items : List Quote)
  | quoteBare (q : Quote)
  | statsResp (totalCharacters totalEpisodes totalQuotes : Nat)
      (seasons : Option Int) (apiVersion : String)
  | emptyBody
deriving Repr, DecidableEq

/-- Decide whether the list `pat` occurs as the initial run of `s`
(character-by-character comparison, as in `String.prototype.startsWith`). -/
def startsWithChars : List Char → List Char → Bool
  | [], _ => true
  | _ :: _, [] => false
  | a :: as, b :: bs => a == b && startsWithChars as bs

/-- Decide whether `sub` occurs contiguously inside `s`, mirroring
`String.prototype.includes` (the empty pattern is contained in every
string). -/
def charsInclude : List Char → List Char → Bool
  | [], sub => sub.isEmpty
  | c :: rest, sub => startsWithChars sub (c :: rest) || charsInclude rest sub

/-- Model of `s.includes(sub)` on strings. -/
def strIncludes (s sub : String) : Bool :=
  charsInclude s.data sub.data

/-- Model of `s.toLowerCase()` (basic-latin case folding, which is what the
dataset uses). -/
def jsToLower (s : String) : String :=
  String.mk (s.data.map Char.toLower)

/-- Numeric value of a decimal digit character. -/
def digitVal (c : Char) : Nat :=
  c.toNat - 48

/-- The maximal run of leading decimal digits of a character list. -/
def takeDigits : List Char → List Char
  | [] => []
  | c :: cs => if c.isDigit then c :: takeDigits cs else []

/-- The number denoted by a list of decimal digit characters. -/
def digitsToNat (ds : List Char) : Nat :=
  ds.foldl (fun a c => 10 * a + digitVal c) 0

/-- Parse the leading run of decimal digits of a character list; `none`
models `NaN` (no digits at all). -/
def parseIntCore (l : List Char) : Option Int :=
  let ds := takeDigits l
  if ds.isEmpty then none else some ((digitsToNat ds : Nat) : Int)

/-- Decide whether a character is a hexadecimal digit as `parseInt` in base
16 accepts them. -/
def isHexDigitJS (c : Char) : Bool :=
  c.isDigit || ('a' ≤ c && c ≤ 'f') || ('A' ≤ c && c ≤ 'F')

/-- Numeric value of a hexadecimal digit character. -/
def hexDigitVal (c : Char) : Nat :=
  if c.isDigit then c.toNat - 48
  else if 'a' ≤ c && c ≤ 'f' then c.toNat - 87
  else c.toNat - 55

/-- The maximal run of leading hexadecimal digits of a character list. -/
def takeHexDigits : List Char → List Char
  | [] => []
  | c :: cs => if isHexDigitJS c then c :: takeHexDigits cs else []

/-- The number denoted by a list of hexadecimal digit characters. -/
def hexDigitsToNat (ds : List Char) : Nat :=
  ds.foldl (fun a c => 16 * a + hexDigitVal c) 0

/-- Parse the leading run of hexadecimal digits of a character list; `none`
models the `NaN` result when no hex digit at all follows the `0x` prefix
(as in `parseInt("0x")`). -/
def parseHexCore (l : List Char) : Option Int :=
  let ds := takeHexDigits l
  if ds.isEmpty then none else some ((hexDigitsToNat ds : Nat) : Int)

/-- After whitespace and an optional sign, `parseInt` auto-detects the
radix: a `0x`/`0X` prefix switches to base 16 on the remainder; otherwise
the maximal run of decimal digits is read. -/
def parseIntAfterSign : List Char → Option Int
  | c0 :: c1 :: rest =>
    if c0 = '0' ∧ (c1 = 'x' ∨ c1 = 'X') then parseHexCore rest
    else parseIntCore (c0 :: c1 :: rest)
  | l => parseIntCore l

/-- Model of JavaScript `parseInt(s)` with no radix argument: skip leading
whitespace, accept an optional sign, auto-detect the `0x`/`0X` hexadecimal
prefix, and otherwise read the maximal run of decimal digits; `none` models
the `NaN` result when no digit follows. In particular
`parseIntJS "5abc" = some 5`, `parseIntJS "abc" = none`,
`parseIntJS "0x10" = some 16` and `parseIntJS "0x" = none`. -/
def parseIntJS (s : String) : Option Int :=
  let cs := s.data.dropWhile Char.isWhitespace
  if cs.head? = some '-' then (parseIntAfterSign cs.tail).map (fun n => -n)
  else if cs.head? = some '+' then parseIntAfterSign cs.tail
  else parseIntAfterSign cs

/-- Strict equality `x === id` where `id` is the result of `parseInt`:
comparison with `NaN` (modelled by `none`) is always false. -/
def idEq (idOpt : Option Int) (x : Int) : Bool :=
  match idOpt with
  | some i => x == i
  | none => false

/-- Model of `getRandomItem(array)`: `array[Math.floor(Math.random() *
array.length)]`, with the random draw supplied by the oracle `r`. On an
empty array the JavaScript expression is `array[0] = undefined`, which the
model renders as `none`. -/
def getRandomItem {α : Type} (arr : List α) (r : Nat) : Option α :=
  arr.get? (r % max arr.length 1)

/-- The stringified field values of a character record, in insertion order,
as `Object.values` yields them to the substring filter. -/
def Character.values (c : Character) : List String :=
  toString c.id :: c.name :: c.extra

/-- The stringified field values of an episode record. -/
def Episode.values (e : Episode) : List String :=
  toString e.id :: toString e.season :: e.extra

/-- The stringified field values of a quote record. -/
def Quote.values (q : Quote) : List String :=
  toString q.id :: q.character :: q.text :: q.extra

/-- Model of `filterByQuery(array, query)` on a scalar (string or absent)
query: a falsy query (absent or the empty string) returns the array
unchanged; otherwise keep the records one of whose stringified field
values contains the query as a case-insensitive substring. The array-valued
query case, where `query.toLowerCase()` throws, is modelled by
`filterByQueryJS` below. -/
def filterByQuery {α : Type} (values : α → List String) (arr : List α)
    (query : Option String) : List α :=
  match query with
  | none => arr
  | some q =>
    if q = "" then arr
    else arr.filter (fun item =>
      (values item).any (fun v => strIncludes (jsToLower v) (jsToLower q)))

/-- The quotes related to a character: those whose `character` field
contains the character's `name` as a case-insensitive substring, in table
order (`quotes.filter` in `handleCharacters`). -/
def relatedQuotes (qs : List Quote) (c : Character) : List Quote :=
  qs.filter (fun q => strIncludes (jsToLower q.character) (jsToLower c.name))

/-- Model of `handleCharacters(req, res, pathParts, query)`. -/
def handleCharacters (ds : Dataset) (parts : List String)
    (search : Option String) (r : Nat) : Response :=
  if parts.length = 2 then
    let filtered := filterByQuery Character.values ds.characters search
    .charList filtered.length filtered
  else if parts.length = 3 ∧ parts.getD 2 "" = "random" then
    match getRandomItem ds.characters r with
    | some c => .charBare c
    | none => .emptyBody
  else if parts.length = 3 then
    match ds.characters.find? (fun c => idEq (parseIntJS (parts.getD 2 "")) c.id) with
    | some c => .charWithQuotes c (relatedQuotes ds.quotes c)
    | none => .errorResp 404 "Character not found"
  else
    .errorResp 404 "Invalid characters endpoint"

/-- Model of `handleEpisodes(req, res, pathParts, query)`: the exact
`season` filter (skipped when the parameter is falsy) is applied first,
then the generic substring filter on `search`. -/
def handleEpisodes (ds : Dataset) (parts : List String)
    (season search : Option String) (r : Nat) : Response :=
  if parts.length = 2 then
    let afterSeason :=
      match season with
      | none => ds.episodes
      | some s =>
        if s = "" then ds.episodes
        else ds.episodes.filter (fun ep => idEq (parseIntJS s) ep.season)
    let filtered := filterByQuery Episode.values afterSeason search
    .epList filtered.length filtered
  else if parts.length = 3 ∧ parts.getD 2 "" = "random" then
    match getRandomItem ds.episodes r with
    | some e => .epBare e
    | none => .emptyBody
  else if parts.length = 3 then
    match ds.episodes.find? (fun ep => idEq (parseIntJS (parts.getD 2 "")) ep.id) with
    | some e => .epBare e
    | none => .errorResp 404 "Episode not found"
  else
    .errorResp 404 "Invalid episodes endpoint"

/-- Model of `handleQuotes(req, res, pathParts, query)`: the `character`
substring filter (skipped when the parameter is falsy) is applied first,
then the generic substring filter on `search`. -/
def handleQuotes (ds : Dataset) (parts : List String)
    (character search : Option String) (r : Nat) : Response :=
  if parts.length = 2 then
    let afterChar :=
      match character with
      | none => ds.quotes
      | some cq =>
        if cq = "" then ds.quotes
        else ds.quotes.filter (fun q =>
          strIncludes (jsToLower q.character) (jsToLower cq))
    let filtered := filterByQuery Quote.values afterChar search
    .quoteList filtered.length filtered
  else if parts.length = 3 ∧ parts.getD 2 "" = "random" then
    match getRandomItem ds.quotes r with
    | some q => .quoteBare q
    | none => .emptyBody
  else if parts.length = 3 then
    match ds.quotes.find? (fun q => idEq (parseIntJS (parts.getD 2 "")) q.id) with
    | some q => .quoteBare q
    | none => .errorResp 404 "Quote not found"
  else
    .errorResp 404 "Invalid quotes endpoint"

/-- Model of `Math.max(...episodes.map(ep => ep.season))`: `none` models
the `-Infinity` obtained on an empty episode table (serialized as JSON
`null`). -/
def maxSeason (eps : List Episode) : Option Int :=
  eps.foldl (fun acc e =>
    match acc with
    | none => some e.season
    | some m => some (max m e.season)) none

/-- Model of `handleStats(req, res)`. -/
def handleStats (ds : Dataset) : Response :=
  .statsResp ds.characters.length ds.episodes.length ds.quotes.length
    (maxSeason ds.episodes) "1.0.0"

/-- Model of `handleCatchphrases(req, res, pathParts, query)`. The function
references the free identifier `catchphrases`, which is bound nowhere in
the program, so every branch that touches it throws a `ReferenceError`
(modelled by `Except.error`); only the fall-through `sendError` branch
completes. The dispatcher below never calls this function: its `switch`
has no `catchphrases` case. -/
def handleCatchphrases (parts : List String) : Except String Response :=
  if parts.length = 2 then
    .error "ReferenceError: catchphrases is not defined"
  else if parts.length = 3 ∧ parts.getD 2 "" = "random" then
    .error "ReferenceError: catchphrases is not defined"
  else if parts.length = 3 then
    .error "ReferenceError: catchphrases is not defined"
  else
    .ok (.errorResp 404 "Invalid catchphrases endpoint")

/-- Model of `handleRequest(req, res)`: `OPTIONS` preflight first, then the
405 guard, then the root documentation, then the `api` dispatch on the
second path segment, with unknown endpoints falling through to the 404
`Endpoint not found` default and non-`api` paths to 404 `Not found`.
An `Except.error` value would model an uncaught exception escaping the
handler; the dispatcher never routes to `handleCatchphrases`, the only
function that can throw. -/
def handleRequest (ds : Dataset) (m : Method) (parts : List String)
    (q : QueryParams) (r : Nat) : Except String Response :=
  match m with
  | .OPTIONS => .ok .optionsPre
  | .other _ => .ok (.errorResp 405 "Method not allowed")
  | .GET =>
    match parts with
    | [] => .ok .docs
    | p0 :: rest =>
      if p0 = "api" then
        match rest with
        | [] => .ok (.errorResp 400 "Invalid API endpoint")
        | endpoint :: _ =>
          if endpoint = "characters" then .ok (handleCharacters ds parts q.search r)
          else if endpoint = "episodes" then .ok (handleEpisodes ds parts q.season q.search r)
          else if endpoint = "quotes" then .ok (handleQuotes ds parts q.character q.search r)
          else if endpoint = "stats" then .ok (handleStats ds)
          else .ok (.errorResp 404 "Endpoint not found")
      else .ok (.errorResp 404 "Not found")

/-- Whether a dispatcher result is a response (as opposed to an uncaught
exception). -/
def respOk : Except String Response → Bool
  | .ok _ => true
  | .error _ => false

/-- One step of the server loop with the table state passed explicitly:
the handlers only read the tables, so the state comes back unchanged. -/
def serverStep (ds : Dataset) (m : Method) (parts : List String)
    (q : QueryParams) (r : Nat) : Except String Response × Dataset :=
  (handleRequest ds m parts q r, ds)

/-- Empty dataset (all three tables empty). -/
def dsEmpty : Dataset := ⟨[], [], []⟩

/-- Request with no query parameters. -/
def qNone : QueryParams := ⟨none, none, none⟩

/-- Sample character record with id 1. -/
def char1 : Character := ⟨1, "Jerry Seinfeld", ["comedian"]⟩

/-- Sample character record with id 5. -/
def char5 : Character := ⟨5, "Newman", ["mailman"]⟩

/-- Sample episode record with id 1, season 3. -/
def ep3 : Episode := ⟨1, 3, ["The Pitch"]⟩

/-- Sample episode record with id 2, season 9. -/
def ep9 : Episode := ⟨2, 9, ["The Finale"]⟩

/-- Sample quote record attributed to Jerry Seinfeld. -/
def quote1 : Quote := ⟨1, "Jerry Seinfeld", "Hello Newman", []⟩

/-- Sample dataset with two characters, two episodes and one quote. -/
def ds1 : Dataset := ⟨[char1, char5], [ep3, ep9], [quote1]⟩

/-- A query value as `url.parse(url, true)` actually delivers it: absent,
a single string for a key given once, or an array of strings for a
repeated key (`?search=a&search=b`). -/
inductive QueryVal where
  | absent
  | one (s : String)
  | many (l : List String)
deriving Repr, DecidableEq

/-- JavaScript truthiness of a query value: `undefined` and `""` are
falsy; every other string and every array is truthy. -/
def queryTruthy : QueryVal → Bool
  | .absent => false
  | .one s => !(s == "")
  | .many _ => true

/-- JavaScript `String(value)` of a query value: `undefined` stringifies
to `"undefined"`, an array joins its elements with commas (relevant where
`parseInt` coerces its argument, as in `parseInt(query.season)`). -/
def queryToStringJS : QueryVal → String
  | .absent => "undefined"
  | .one s => s
  | .many l => String.intercalate "," l

/-- Whether a query value is scalar (not an array). -/
def scalarVal : QueryVal → Bool
  | .many _ => false
  | _ => true

/-- Embed an optional scalar string into a query value. -/
def liftVal : Option String → QueryVal
  | none => .absent
  | some s => .one s

/-- Forget a query value down to an optional scalar string (arrays map to
`none`; only used under a `scalarVal` hypothesis). -/
def dropVal : QueryVal → Option String
  | .absent => none
  | .one s => some s
  | .many _ => none

/-- The full query object delivered by `url.parse`: each of the three keys
the handlers read may be absent, a single string, or an array of strings
from a repeated key. -/
structure QueryParamsJS where
  search : QueryVal
  season : QueryVal
  character : QueryVal
deriving Repr, DecidableEq

/-- Whether all three query parameters are scalar, i.e. no key was
repeated in the query string. -/
def scalarQuery (q : QueryParamsJS) : Bool :=
  scalarVal q.search && scalarVal q.season && scalarVal q.character

/-- Embed scalar query parameters into the full query object. -/
def liftQuery (q : QueryParams) : QueryParamsJS :=
  ⟨liftVal q.search, liftVal q.season, liftVal q.character⟩

/-- Model of `filterByQuery(array, query)` on an arbitrary query value. An
absent query is falsy and returns the array; a string query behaves as
`filterByQuery`; an array query is truthy, so the code proceeds into the
filter callback, where `query.toLowerCase()` throws an uncaught
`TypeError` at the first record (every record of this API stringifies to a
nonempty value list) — unless the table is empty, in which case the
callback never runs and the empty array is returned. -/
def filterByQueryJS {α : Type} (values : α → List String) (arr : List α)
    (query : QueryVal) : Except String (List α) :=
  match query with
  | .absent => .ok arr
  | .one q => .ok (filterByQuery values arr (some q))
  | .many _ =>
    if arr.isEmpty then .ok []
    else .error "TypeError: query.toLowerCase is not a function"

/-- The season pre-filter of `handleEpisodes` on an arbitrary query value:
skipped when falsy, otherwise a strict-equality filter against
`parseInt(query.season)` — which coerces an array to its comma-joined
string rather than throwing. -/
def seasonFilterJS (eps : List Episode) (season : QueryVal) : List Episode :=
  if queryTruthy season then
    eps.filter (fun ep => idEq (parseIntJS (queryToStringJS season)) ep.season)
  else eps

/-- The character pre-filter of `handleQuotes` on an arbitrary query
value: skipped when falsy; a string filters by case-insensitive substring;
an array reaches `query.character.toLowerCase()` inside the filter
callback and throws an uncaught `TypeError` at the first quote — unless
the quotes table is empty, in which case the callback never runs. -/
def characterFilterJS (qs : List Quote) (character : QueryVal) :
    Except String (List Quote) :=
  match character with
  | .absent => .ok qs
  | .one cq =>
    .ok (if cq = "" then qs
      else qs.filter (fun q => strIncludes (jsToLower q.character) (jsToLower cq)))
  | .many _ =>
    if qs.isEmpty then .ok []
    else .error "TypeError: query.character.toLowerCase is not a function"

/-- Model of `handleCharacters` on the full query object: identical to
`handleCharacters` except that the list branch propagates the `TypeError`
an array-valued `search` triggers. -/
def handleCharactersJS (ds : Dataset) (parts : List String)
    (search : QueryVal) (r : Nat) : Except String Response :=
  if parts.length = 2 then
    match filterByQueryJS Character.values ds.characters search with
    | .ok filtered => .ok (.charList filtered.length filtered)
    | .error e => .error e
  else if parts.length = 3 ∧ parts.getD 2 "" = "random" then
    .ok (match getRandomItem ds.characters r with
      | some c => .charBare c
      | none => .emptyBody)
  else if parts.length = 3 then
    .ok (match ds.characters.find? (fun c => idEq (parseIntJS (parts.getD 2 "")) c.id) with
      | some c => .charWithQuotes c (relatedQuotes ds.quotes c)
      | none => .errorResp 404 "Character not found")
  else
    .ok (.errorResp 404 "Invalid characters endpoint")

/-- Model of `handleEpisodes` on the full query object: the season filter
never throws (thanks to `parseInt` coercion), the search filter propagates
the `TypeError` of an array value. -/
def handleEpisodesJS (ds : Dataset) (parts : List String)
    (season search : QueryVal) (r : Nat) : Except String Response :=
  if parts.length = 2 then
    match filterByQueryJS Episode.values (seasonFilterJS ds.episodes season) search with
    | .ok filtered => .ok (.epList filtered.length filtered)
    | .error e => .error e
  else if parts.length = 3 ∧ parts.getD 2 "" = "random" then
    .ok (match getRandomItem ds.episodes r with
      | some e => .epBare e
      | none => .emptyBody)
  else if parts.length = 3 then
    .ok (match ds.episodes.find? (fun ep => idEq (parseIntJS (parts.getD 2 "")) ep.id) with
      | some e => .epBare e
      | none => .errorResp 404 "Episode not found")
  else
    .ok (.errorResp 404 "Invalid episodes endpoint")

/-- Model of `handleQuotes` on the full query object: both the character
filter and the search filter propagate the `TypeError` an array value
triggers. -/
def handleQuotesJS (ds : Dataset) (parts : List String)
    (character search : QueryVal) (r : Nat) : Except String Response :=
  if parts.length = 2 then
    match characterFilterJS ds.quotes character with
    | .error e => .error e
    | .ok afterChar =>
      match filterByQueryJS Quote.values afterChar search with
      | .ok filtered => .ok (.quoteList filtered.length filtered)
      | .error e => .error e
  else if parts.length = 3 ∧ parts.getD 2 "" = "random" then
    .ok (match getRandomItem ds.quotes r with
      | some q => .quoteBare q
      | none => .emptyBody)
  else if parts.length = 3 then
    .ok (match ds.quotes.find? (fun q => idEq (parseIntJS (parts.getD 2 "")) q.id) with
      | some q => .quoteBare q
      | none => .errorResp 404 "Quote not found")
  else
    .ok (.errorResp 404 "Invalid quotes endpoint")

/-- Model of `handleRequest` on the full query object delivered by
`url.parse`, including the array values of repeated query keys and the
uncaught `TypeError` (`Except.error`) they cause inside the handlers.
`handleRequest` above is its restriction to scalar queries
(`handleRequestJS_scalar` below proves the two agree there). -/
def handleRequestJS (ds : Dataset) (m : Method) (parts : List String)
    (q : QueryParamsJS) (r : Nat) : Except String Response :=
  match m with
  | .OPTIONS => .ok .optionsPre
  | .other _ => .ok (.errorResp 405 "Method not allowed")
  | .GET =>
    match parts with
    | [] => .ok .docs
    | p0 :: rest =>
      if p0 = "api" then
        match rest with
        | [] => .ok (.errorResp 400 "Invalid API endpoint")
        | endpoint :: _ =>
          if endpoint = "characters" then handleCharactersJS ds parts q.search r
          else if endpoint = "episodes" then handleEpisodesJS ds parts q.season q.search r
          else if endpoint = "quotes" then handleQuotesJS ds parts q.character q.search r
          else if endpoint = "stats" then .ok (handleStats ds)
          else .ok (.errorResp 404 "Endpoint not found")
      else .ok (.errorResp 404 "Not found")

/-- Full query object with no parameters. -/
def qjNone : QueryParamsJS := ⟨.absent, .absent, .absent⟩

/-- Full query object with a repeated `search` key (an array value). -/
def qjSearchArr : QueryParamsJS := ⟨.many ["a", "b"], .absent, .absent⟩

/-- Sample character record with id 0. -/
def char0 : Character := ⟨0, "Zero", []⟩

/-- Sample character record with id 16. -/
def char16 : Character := ⟨16, "Sixteen", []⟩

/-- Sample dataset whose character ids include 0 and 16. -/
def dsHex : Dataset := ⟨[char0, char16], [], []⟩

/-- A nonempty list always yields a random element, whatever the oracle. -/
lemma getRandomItem_isSome {α : Type} (arr : List α) (r : Nat) (h : arr ≠ []) :
    ∃ x, getRandomItem arr r = some x := by
  have hlen : 0 < arr.length := List.length_pos.mpr h
  have hmax : max arr.length 1 = arr.length := by omega
  have hlt : r % arr.length < arr.length := Nat.mod_lt _ hlen
  refine ⟨arr.get ⟨r % arr.length, hlt⟩, ?_⟩
  rw [getRandomItem, hmax]
  exact List.get?_eq_get hlt

/-- The substring filter only ever removes records, in order. -/
lemma filterByQuery_sublist {α : Type} (values : α → List String)
    (arr : List α) (query : Option String) :
    (filterByQuery values arr query).Sublist arr := by
  match query with
  | none => exact List.Sublist.refl arr
  | some q =>
    by_cases hq : q = ""
    · simp [filterByQuery, hq]
    · simp only [filterByQuery, if_neg hq]
      exact List.filter_sublist arr

/-- Membership in the result of the substring filter implies membership in
the input table. -/
lemma filterByQuery_mem {α : Type} {values : α → List String}
    {arr : List α} {query : Option String} {x : α}
    (h : x ∈ filterByQuery values arr query) : x ∈ arr :=
  (filterByQuery_sublist values arr query).mem h

/-- Comparison with the `NaN` id matches no record. -/
lemma find?_idEq_none {α : Type} (f : α → Int) (l : List α) :
    l.find? (fun x => idEq none (f x)) = none := by
  rw [List.find?_eq_none]
  intro x _
  simp [idEq]

/-- The characters handler never sends an empty body when the characters
table is nonempty. -/
lemma handleCharacters_ne_emptyBody (ds : Dataset) (parts : List String)
    (s : Option String) (r : Nat) (h : ds.characters ≠ []) :
    handleCharacters ds parts s r ≠ .emptyBody := by
  unfold handleCharacters
  obtain ⟨x, hx⟩ := getRandomItem_isSome ds.characters r h
  split
  · simp
  · split
    · rw [hx]; simp
    · split
      · split <;> simp
      · simp

/-- The episodes handler never sends an empty body when the episodes table
is nonempty. -/
lemma handleEpisodes_ne_emptyBody (ds : Dataset) (parts : List String)
    (sn s : Option String) (r : Nat) (h : ds.episodes ≠ []) :
    handleEpisodes ds parts sn s r ≠ .emptyBody := by
  unfold handleEpisodes
  obtain ⟨x, hx⟩ := getRandomItem_isSome ds.episodes r h
  split
  · simp
  · split
    · rw [hx]; simp
    · split
      · split <;> simp
      · simp

/-- The quotes handler never sends an empty body when the quotes table is
nonempty. -/
lemma handleQuotes_ne_emptyBody (ds : Dataset) (parts : List String)
    (cq s : Option String) (r : Nat) (h : ds.quotes ≠ []) :
    handleQuotes ds parts cq s r ≠ .emptyBody := by
  unfold handleQuotes
  obtain ⟨x, hx⟩ := getRandomItem_isSome ds.quotes r h
  split
  · simp
  · split
    · rw [hx]; simp
    · split
      · split <;> simp
      · simp

/-- The dispatcher always produces a response, never an uncaught
exception, whatever the dataset, method, path, query and random draw. -/
lemma handleRequest_isOk (ds : Dataset) (m : Method) (parts : List String)
    (q : QueryParams) (r : Nat) : respOk (handleRequest ds m parts q r) = true := by
  cases m with
  | OPTIONS => rfl
  | other s => rfl
  | GET =>
    cases parts with
    | nil => rfl
    | cons p0 rest =>
      simp only [handleRequest]
      split
      · cases rest with
        | nil => rfl
        | cons e t => repeat (first | rfl | split)
      · rfl

/-- Claim C1: every GET request whose resource root is `/api/catchphrases`
fails predictably with the structured JSON error envelope, HTTP 404 and
message `Endpoint not found`: it never returns a data payload and never
produces an unstructured crash. The dispatcher's switch has no
`catchphrases` case, so the dead (and crashing) `handleCatchphrases` is
never reached and the request falls through to the default error. -/
theorem catchphrases_requests_fail_predictably (ds : Dataset)
    (rest : List String) (q : QueryParams) (r : Nat) :
    handleRequest ds .GET ("api" :: "catchphrases" :: rest) q r =
      .ok (.errorResp 404 "Endpoint not found") := rfl

/-- Claim C2, counterexample: the path `/api/zzz` matches no known route,
yet the GET response body is the error message `Endpoint not found`, not
`Not found` as the claim requires. -/
theorem unmatched_api_path_body_differs :
    handleRequest dsEmpty .GET ["api", "zzz"] qNone 0 =
      .ok (.errorResp 404 "Endpoint not found") ∧
    ("Endpoint not found" : String) ≠ "Not found" :=
  ⟨rfl, by decide⟩

/-- Claim C2, amended: a GET request whose non-empty path does not start
with the segment `api` gets HTTP 404 with body `error: Not found`; an
unmatched endpoint under `api` instead gets HTTP 404 with body
`error: Endpoint not found`. -/
theorem unknown_route_responses (ds : Dataset) (q : QueryParams) (r : Nat) :
    (∀ p0 rest, p0 ≠ "api" →
      handleRequest ds .GET (p0 :: rest) q r = .ok (.errorResp 404 "Not found")) ∧
    (∀ e rest, e ≠ "characters" → e ≠ "episodes" → e ≠ "quotes" → e ≠ "stats" →
      handleRequest ds .GET ("api" :: e :: rest) q r =
        .ok (.errorResp 404 "Endpoint not found")) := by
  constructor
  · intro p0 rest h
    simp [handleRequest, h]
  · intro e rest h1 h2 h3 h4
    simp [handleRequest, h1, h2, h3, h4]

/-- Claim C2, witness for the amended statement at concrete inputs. -/
theorem unknown_route_responses_witness :
    handleRequest dsEmpty .GET ["foo"] qNone 0 = .ok (.errorResp 404 "Not found") ∧
    handleRequest dsEmpty .GET ["api", "zz"] qNone 0 =
      .ok (.errorResp 404 "Endpoint not found") :=
  ⟨(unknown_route_responses dsEmpty qNone 0).1 "foo" [] (by decide),
   (unknown_route_responses dsEmpty qNone 0).2 "zz" [] (by decide) (by decide)
     (by decide) (by decide)⟩

/-- The full filter on a scalar query value agrees with the scalar
filter. -/
lemma filterByQueryJS_scalar {α : Type} (values : α → List String)
    (arr : List α) (s : Option String) :
    filterByQueryJS values arr (liftVal s) = .ok (filterByQuery values arr s) := by
  cases s <;> rfl

/-- The season pre-filter on a scalar query value agrees with the scalar
season filter of `handleEpisodes`. -/
lemma seasonFilterJS_scalar (eps : List Episode) (sn : Option String) :
    seasonFilterJS eps (liftVal sn) =
      match sn with
      | none => eps
      | some s =>
        if s = "" then eps
        else eps.filter (fun ep => idEq (parseIntJS s) ep.season) := by
  cases sn with
  | none => rfl
  | some s =>
    by_cases h : s = ""
    · subst h
      rfl
    · simp [seasonFilterJS, liftVal, queryTruthy, queryToStringJS, h]

/-- The character pre-filter on a scalar query value agrees with the
scalar character filter of `handleQuotes`. -/
lemma characterFilterJS_scalar (qs : List Quote) (cq : Option String) :
    characterFilterJS qs (liftVal cq) =
      .ok (match cq with
        | none => qs
        | some c =>
          if c = "" then qs
          else qs.filter (fun q => strIncludes (jsToLower q.character) (jsToLower c))) := by
  cases cq <;> rfl

/-- On scalar query parameters, the full characters handler agrees with
the scalar one. -/
lemma handleCharactersJS_scalar (ds : Dataset) (parts : List String)
    (s : Option String) (r : Nat) :
    handleCharactersJS ds parts (liftVal s) r = .ok (handleCharacters ds parts s r) := by
  unfold handleCharactersJS handleCharacters
  by_cases h2 : parts.length = 2
  · simp only [if_pos h2, filterByQueryJS_scalar]
  · by_cases h3 : parts.length = 3 ∧ parts.getD 2 "" = "random"
    · simp only [if_neg h2, if_pos h3]
    · by_cases h4 : parts.length = 3
      · simp only [if_neg h2, if_neg h3, if_pos h4]
      · simp only [if_neg h2, if_neg h3, if_neg h4]

/-- On scalar query parameters, the full episodes handler agrees with the
scalar one. -/
lemma handleEpisodesJS_scalar (ds : Dataset) (parts : List String)
    (sn s : Option String) (r : Nat) :
    handleEpisodesJS ds parts (liftVal sn) (liftVal s) r =
      .ok (handleEpisodes ds parts sn s r) := by
  unfold handleEpisodesJS handleEpisodes
  by_cases h2 : parts.length = 2
  · simp only [if_pos h2, seasonFilterJS_scalar, filterByQueryJS_scalar]
  · by_cases h3 : parts.length = 3 ∧ parts.getD 2 "" = "random"
    · simp only [if_neg h2, if_pos h3]
    · by_cases h4 : parts.length = 3
      · simp only [if_neg h2, if_neg h3, if_pos h4]
      · simp only [if_neg h2, if_neg h3, if_neg h4]

/-- On scalar query parameters, the full quotes handler agrees with the
scalar one. -/
lemma handleQuotesJS_scalar (ds : Dataset) (parts : List String)
    (cq s : Option String) (r : Nat) :
    handleQuotesJS ds parts (liftVal cq) (liftVal s) r =
      .ok (handleQuotes ds parts cq s r) := by
  unfold handleQuotesJS handleQuotes
  by_cases h2 : parts.length = 2
  · simp only [if_pos h2, characterFilterJS_scalar, filterByQueryJS_scalar]
  · by_cases h3 : parts.length = 3 ∧ parts.getD 2 "" = "random"
    · simp only [if_neg h2, if_pos h3]
    · by_cases h4 : parts.length = 3
      · simp only [if_neg h2, if_neg h3, if_pos h4]
      · simp only [if_neg h2, if_neg h3, if_neg h4]

/-- On scalar query parameters — the only query shapes producible without
repeating a key — the full dispatcher agrees with the scalar one. -/
lemma handleRequestJS_scalar (ds : Dataset) (m : Method) (parts : List String)
    (q : QueryParams) (r : Nat) :
    handleRequestJS ds m parts (liftQuery q) r = handleRequest ds m parts q r := by
  cases m with
  | OPTIONS => rfl
  | other s => rfl
  | GET =>
    cases parts with
    | nil => rfl
    | cons p0 rest =>
      by_cases hapi : p0 = "api"
      · cases rest with
        | nil => simp [handleRequestJS, handleRequest, hapi]
        | cons e t =>
          simp only [handleRequestJS, handleRequest, if_pos hapi]
          by_cases h1 : e = "characters"
          · simp only [if_pos h1]
            exact handleCharactersJS_scalar ds (p0 :: e :: t) q.search r
          · by_cases h2 : e = "episodes"
            · simp only [if_neg h1, if_pos h2]
              exact handleEpisodesJS_scalar ds (p0 :: e :: t) q.season q.search r
            · by_cases h3 : e = "quotes"
              · simp only [if_neg h1, if_neg h2, if_pos h3]
                exact handleQuotesJS_scalar ds (p0 :: e :: t) q.character q.search r
              · by_cases h4 : e = "stats"
                · simp [if_neg h1, if_neg h2, if_neg h3, if_pos h4]
                · simp [if_neg h1, if_neg h2, if_neg h3, if_neg h4]
      · simp [handleRequestJS, handleRequest, hapi]

/-- A scalar query value is recovered by lifting its optional string. -/
lemma scalar_lift (v : QueryVal) (h : scalarVal v = true) :
    liftVal (dropVal v) = v := by
  cases v with
  | absent => rfl
  | one s => rfl
  | many l => simp [scalarVal] at h

/-- The full characters handler never sends an empty body when the
characters table is nonempty. -/
lemma handleCharactersJS_ne_emptyBody (ds : Dataset) (parts : List String)
    (v : QueryVal) (r : Nat) (h : ds.characters ≠ []) :
    handleCharactersJS ds parts v r ≠ .ok Response.emptyBody := by
  unfold handleCharactersJS
  obtain ⟨x, hx⟩ := getRandomItem_isSome ds.characters r h
  split
  · split <;> simp
  · split
    · rw [hx]
      simp
    · split
      · split <;> simp
      · simp

/-- The full episodes handler never sends an empty body when the episodes
table is nonempty. -/
lemma handleEpisodesJS_ne_emptyBody (ds : Dataset) (parts : List String)
    (sn v : QueryVal) (r : Nat) (h : ds.episodes ≠ []) :
    handleEpisodesJS ds parts sn v r ≠ .ok Response.emptyBody := by
  unfold handleEpisodesJS
  obtain ⟨x, hx⟩ := getRandomItem_isSome ds.episodes r h
  split
  · split <;> simp
  · split
    · rw [hx]
      simp
    · split
      · split <;> simp
      · simp

/-- The full quotes handler never sends an empty body when the quotes
table is nonempty. -/
lemma handleQuotesJS_ne_emptyBody (ds : Dataset) (parts : List String)
    (cv v : QueryVal) (r : Nat) (h : ds.quotes ≠ []) :
    handleQuotesJS ds parts cv v r ≠ .ok Response.emptyBody := by
  unfold handleQuotesJS
  obtain ⟨x, hx⟩ := getRandomItem_isSome ds.quotes r h
  split
  · split
    · simp
    · split <;> simp
  · split
    · rw [hx]
      simp
    · split
      · split <;> simp
      · simp

/-- Claim C3, counterexample: request handling is neither total nor free
of empty bodies. On an empty characters table, `GET /api/characters/random`
produces a 200 response whose body is empty (the serialization of
`undefined`); and a repeated `search` key (`?search=a&search=b`), which
`url.parse` delivers as an array, makes `query.toLowerCase()` throw an
uncaught `TypeError` inside the substring filter over a nonempty table. -/
theorem request_handling_not_total :
    handleRequestJS dsEmpty .GET ["api", "characters", "random"] qjNone 0 =
      .ok Response.emptyBody ∧
    handleRequestJS ds1 .GET ["api", "characters"] qjSearchArr 0 =
      .error "TypeError: query.toLowerCase is not a function" := ⟨rfl, rfl⟩

/-- Claim C3, amended: request handling of the full query model (array
values from repeated keys included) is total — producing a response, with
every user-visible failure the structured JSON error envelope (the
`errorResp` constructor carrying the `error` message and its status code)
— whenever all query parameters are scalar; and no response has an empty
body when all three tables are non-empty. However, an array-valued
parameter reaching a substring filter over a nonempty table throws an
uncaught `TypeError`, and the random endpoints of an empty table return
an empty 200 body. -/
theorem request_handling_total_and_structured (ds : Dataset) (m : Method)
    (parts : List String) (qj : QueryParamsJS) (r : Nat) :
    (scalarQuery qj = true → respOk (handleRequestJS ds m parts qj r) = true) ∧
    (ds.characters ≠ [] → ds.episodes ≠ [] → ds.quotes ≠ [] →
      handleRequestJS ds m parts qj r ≠ .ok Response.emptyBody) := by
  constructor
  · intro hs
    simp only [scalarQuery, Bool.and_eq_true] at hs
    obtain ⟨⟨h1, h2⟩, h3⟩ := hs
    have hq : liftQuery ⟨dropVal qj.search, dropVal qj.season, dropVal qj.character⟩ = qj := by
      simp [liftQuery, scalar_lift qj.search h1, scalar_lift qj.season h2,
        scalar_lift qj.character h3]
    rw [← hq, handleRequestJS_scalar]
    exact handleRequest_isOk ds m parts _ r
  · intro hc he hq2 hcontra
    cases m with
    | OPTIONS => simp [handleRequestJS] at hcontra
    | other s => simp [handleRequestJS] at hcontra
    | GET =>
      cases parts with
      | nil => simp [handleRequestJS] at hcontra
      | cons p0 rest =>
        simp only [handleRequestJS] at hcontra
        split at hcontra
        · split at hcontra
          · simp at hcontra
          · split at hcontra
            · exact handleCharactersJS_ne_emptyBody ds _ qj.search r hc hcontra
            · split at hcontra
              · exact handleEpisodesJS_ne_emptyBody ds _ qj.season qj.search r he hcontra
              · split at hcontra
                · exact handleQuotesJS_ne_emptyBody ds _ qj.character qj.search r hq2 hcontra
                · split at hcontra
                  · simp [handleStats] at hcontra
                  · simp at hcontra
        · simp at hcontra

/-- Claim C3, witness for the amended statement at a concrete dataset with
non-empty tables and a concrete scalar request. -/
theorem request_handling_total_and_structured_witness :
    respOk (handleRequestJS ds1 .GET ["api", "quotes"] qjNone 0) = true ∧
    handleRequestJS ds1 .GET ["api", "quotes"] qjNone 0 ≠ .ok Response.emptyBody :=
  ⟨(request_handling_total_and_structured ds1 .GET ["api", "quotes"] qjNone 0).1 (by decide),
   (request_handling_total_and_structured ds1 .GET ["api", "quotes"] qjNone 0).2
     (by decide) (by decide) (by decide)⟩

/-- Claim C8: the substring filter applied with an absent (first conjunct)
or empty (second conjunct) query returns the table unchanged — the same
list, hence the same elements in the same order and of the same length. -/
theorem filter_with_absent_or_empty_query_is_identity {α : Type}
    (values : α → List String) (arr : List α) :
    filterByQuery values arr none = arr ∧ filterByQuery values arr (some "") = arr :=
  ⟨rfl, rfl⟩

/-- Claim C9: one step of the server loop with the table state passed
explicitly returns the tables unchanged — each table, and the dataset as a
whole, is identical before and after handling any request. The handlers
only ever read the tables; nothing assigns to them after `loadData`. -/
theorem tables_unchanged_by_request_handling (ds : Dataset) (m : Method)
    (parts : List String) (q : QueryParams) (r : Nat) :
    (serverStep ds m parts q r).2.characters = ds.characters ∧
    (serverStep ds m parts q r).2.episodes = ds.episodes ∧
    (serverStep ds m parts q r).2.quotes = ds.quotes ∧
    (serverStep ds m parts q r).2 = ds :=
  ⟨rfl, rfl, rfl, rfl⟩

/-- On a three-segment characters path whose last segment is not `random`,
the characters handler runs the by-id lookup. -/
lemma handleCharacters_id_branch (ds : Dataset) (seg : String) (sq : Option String)
    (r : Nat) (hseg : seg ≠ "random") :
    handleCharacters ds ["api", "characters", seg] sq r =
      match ds.characters.find? (fun c => idEq (parseIntJS seg) c.id) with
      | some c => .charWithQuotes c (relatedQuotes ds.quotes c)
      | none => .errorResp 404 "Character not found" := by
  simp [handleCharacters, hseg]

/-- On a three-segment episodes path whose last segment is not `random`,
the episodes handler runs the by-id lookup. -/
lemma handleEpisodes_id_branch (ds : Dataset) (seg : String) (sn sq : Option String)
    (r : Nat) (hseg : seg ≠ "random") :
    handleEpisodes ds ["api", "episodes", seg] sn sq r =
      match ds.episodes.find? (fun e => idEq (parseIntJS seg) e.id) with
      | some e => .epBare e
      | none => .errorResp 404 "Episode not found" := by
  simp [handleEpisodes, hseg]

/-- On a three-segment quotes path whose last segment is not `random`, the
quotes handler runs the by-id lookup. -/
lemma handleQuotes_id_branch (ds : Dataset) (seg : String) (cq sq : Option String)
    (r : Nat) (hseg : seg ≠ "random") :
    handleQuotes ds ["api", "quotes", seg] cq sq r =
      match ds.quotes.find? (fun q => idEq (parseIntJS seg) q.id) with
      | some q => .quoteBare q
      | none => .errorResp 404 "Quote not found" := by
  simp [handleQuotes, hseg]

/-- Claim C4: for every table and every id path segment that is not the
`random` keyword — if the segment parses to an integer, the lookup returns
the first record whose `id` equals that integer, or the resource's
`not found` error when no record has it; if the segment fails to parse
(`NaN`), the lookup matches nothing and likewise answers the `not found`
error, never a parse error. -/
theorem byId_lookup_contract (ds : Dataset) (seg : String) (sq s2 : Option String)
    (r : Nat) (hseg : seg ≠ "random") :
    (∀ i, parseIntJS seg = some i →
      (∀ c, ds.characters.find? (fun x => x.id == i) = some c →
          handleCharacters ds ["api", "characters", seg] sq r =
            .charWithQuotes c (relatedQuotes ds.quotes c))
      ∧ (ds.characters.find? (fun x => x.id == i) = none →
          handleCharacters ds ["api", "characters", seg] sq r =
            .errorResp 404 "Character not found")
      ∧ (∀ e, ds.episodes.find? (fun x => x.id == i) = some e →
          handleEpisodes ds ["api", "episodes", seg] s2 sq r = .epBare e)
      ∧ (ds.episodes.find? (fun x => x.id == i) = none →
          handleEpisodes ds ["api", "episodes", seg] s2 sq r =
            .errorResp 404 "Episode not found")
      ∧ (∀ qt, ds.quotes.find? (fun x => x.id == i) = some qt →
          handleQuotes ds ["api", "quotes", seg] s2 sq r = .quoteBare qt)
      ∧ (ds.quotes.find? (fun x => x.id == i) = none →
          handleQuotes ds ["api", "quotes", seg] s2 sq r =
            .errorResp 404 "Quote not found"))
    ∧ (parseIntJS seg = none →
        handleCharacters ds ["api", "characters", seg] sq r =
          .errorResp 404 "Character not found"
        ∧ handleEpisodes ds ["api", "episodes", seg] s2 sq r =
            .errorResp 404 "Episode not found"
        ∧ handleQuotes ds ["api", "quotes", seg] s2 sq r =
            .errorResp 404 "Quote not found") := by
  constructor
  · intro i hp
    refine ⟨fun c hf => ?_, fun hf => ?_, fun e hf => ?_, fun hf => ?_,
      fun qt hf => ?_, fun hf => ?_⟩
    · rw [handleCharacters_id_branch ds seg sq r hseg, hp]
      simp only [idEq]
      rw [hf]
    · rw [handleCharacters_id_branch ds seg sq r hseg, hp]
      simp only [idEq]
      rw [hf]
    · rw [handleEpisodes_id_branch ds seg s2 sq r hseg, hp]
      simp only [idEq]
      rw [hf]
    · rw [handleEpisodes_id_branch ds seg s2 sq r hseg, hp]
      simp only [idEq]
      rw [hf]
    · rw [handleQuotes_id_branch ds seg s2 sq r hseg, hp]
      simp only [idEq]
      rw [hf]
    · rw [handleQuotes_id_branch ds seg s2 sq r hseg, hp]
      simp only [idEq]
      rw [hf]
  · intro hp
    refine ⟨?_, ?_, ?_⟩
    · rw [handleCharacters_id_branch ds seg sq r hseg, hp,
        find?_idEq_none Character.id ds.characters]
    · rw [handleEpisodes_id_branch ds seg s2 sq r hseg, hp,
        find?_idEq_none Episode.id ds.episodes]
    · rw [handleQuotes_id_branch ds seg s2 sq r hseg, hp,
        find?_idEq_none Quote.id ds.quotes]

/-- Claim C4, witness: on the sample dataset, segment `1` hits character 1
with its related quotes; segment `abc` fails to parse and yields the
`Quote not found` error on the quotes table. -/
theorem byId_lookup_contract_witness :
    parseIntJS "1" = some 1 ∧
    handleCharacters ds1 ["api", "characters", "1"] none 0 =
      .charWithQuotes char1 (relatedQuotes ds1.quotes char1) ∧
    parseIntJS "abc" = none ∧
    handleQuotes ds1 ["api", "quotes", "abc"] none none 0 =
      .errorResp 404 "Quote not found" :=
  ⟨rfl,
   ((byId_lookup_contract ds1 "1" none none 0 (by decide)).1 1 rfl).1 char1 rfl,
   rfl,
   ((byId_lookup_contract ds1 "abc" none none 0 (by decide)).2 rfl).2.2⟩

/-- Claim C5: on an episodes list request carrying a non-empty `season`
parameter, the handler first restricts the table to the episodes whose
`season` strictly equals the parsed integer, then applies the substring
`search` filter to that subset (the result is a subsequence of the
season-filtered subset), and every returned episode has the requested
season. -/
theorem episodes_season_then_search (ds : Dataset) (s : String)
    (search : Option String) (r : Nat) (hs : s ≠ "") :
    handleEpisodes ds ["api", "episodes"] (some s) search r =
      .epList
        (filterByQuery Episode.values
          (ds.episodes.filter (fun ep => idEq (parseIntJS s) ep.season)) search).length
        (filterByQuery Episode.values
          (ds.episodes.filter (fun ep => idEq (parseIntJS s) ep.season)) search) ∧
    (filterByQuery Episode.values
        (ds.episodes.filter (fun ep => idEq (parseIntJS s) ep.season)) search).Sublist
      (ds.episodes.filter (fun ep => idEq (parseIntJS s) ep.season)) ∧
    (∀ i, parseIntJS s = some i →
      ∀ e ∈ filterByQuery Episode.values
          (ds.episodes.filter (fun ep => idEq (parseIntJS s) ep.season)) search,
        e.season = i) := by
  refine ⟨?_, filterByQuery_sublist _ _ _, ?_⟩
  · simp [handleEpisodes, hs]
  · intro i hp e he
    have hmem := filterByQuery_mem he
    have hpe := List.of_mem_filter hmem
    rw [hp] at hpe
    simpa [idEq] using hpe

/-- Claim C5, witness: filtering the sample episodes by `season=9` keeps
exactly the season-9 episode. -/
theorem episodes_season_then_search_witness :
    handleEpisodes ds1 ["api", "episodes"] (some "9") none 0 =
      .epList
        (filterByQuery Episode.values
          (ds1.episodes.filter (fun ep => idEq (parseIntJS "9") ep.season)) none).length
        (filterByQuery Episode.values
          (ds1.episodes.filter (fun ep => idEq (parseIntJS "9") ep.season)) none) ∧
    ep9.season = 9 :=
  ⟨(episodes_season_then_search ds1 "9" none 0 (by decide)).1,
   (episodes_season_then_search ds1 "9" none 0 (by decide)).2.2 9 rfl ep9 (by decide)⟩

/-- Claim C6: a by-id character request whose segment parses to an id found
in the table answers with that character's record augmented with exactly
the quotes whose `character` field case-insensitively contains the
character's `name` as a substring, kept in table order (the quotes list is
a subsequence of the quotes table). -/
theorem character_by_id_includes_matching_quotes (ds : Dataset) (seg : String)
    (i : Int) (c : Character) (s : Option String) (r : Nat)
    (hp : parseIntJS seg = some i)
    (hf : ds.characters.find? (fun x => x.id == i) = some c) :
    handleCharacters ds ["api", "characters", seg] s r =
      .charWithQuotes c (relatedQuotes ds.quotes c) ∧
    (∀ q, q ∈ relatedQuotes ds.quotes c ↔
      q ∈ ds.quotes ∧ strIncludes (jsToLower q.character) (jsToLower c.name) = true) ∧
    (relatedQuotes ds.quotes c).Sublist ds.quotes := by
  have hseg : seg ≠ "random" := by
    intro h
    rw [h] at hp
    have hn : (none : Option Int) = some i := hp
    exact Option.noConfusion hn
  refine ⟨?_, ?_, List.filter_sublist _⟩
  · rw [handleCharacters_id_branch ds seg s r hseg, hp]
    simp only [idEq]
    rw [hf]
  · intro q
    simp [relatedQuotes, List.mem_filter]

/-- Claim C6, witness: character 1 of the sample dataset is answered with
its record and its one matching quote. -/
theorem character_by_id_includes_matching_quotes_witness :
    handleCharacters ds1 ["api", "characters", "1"] none 3 =
      .charWithQuotes char1 (relatedQuotes ds1.quotes char1) ∧
    (quote1 ∈ relatedQuotes ds1.quotes char1 ↔
      quote1 ∈ ds1.quotes ∧
        strIncludes (jsToLower quote1.character) (jsToLower char1.name) = true) :=
  ⟨(character_by_id_includes_matching_quotes ds1 "1" 1 char1 none 3 rfl rfl).1,
   (character_by_id_includes_matching_quotes ds1 "1" 1 char1 none 3 rfl rfl).2.1 quote1⟩

/-- Folding the running-maximum step from a seeded accumulator yields the
maximum of the seed and all seasons in the list, attained by the seed or by
some episode. -/
lemma foldl_maxSeason_some (l : List Episode) (a : Int) :
    ∃ m, l.foldl (fun acc e =>
        match acc with
        | none => some e.season
        | some m => some (max m e.season)) (some a) = some m ∧
      a ≤ m ∧ (∀ e ∈ l, e.season ≤ m) ∧ (m = a ∨ ∃ e ∈ l, e.season = m) := by
  induction l generalizing a with
  | nil => exact ⟨a, rfl, le_refl a, by simp, Or.inl rfl⟩
  | cons e t ih =>
    obtain ⟨m, hm, ham, hall, hmem⟩ := ih (max a e.season)
    refine ⟨m, hm, le_trans (le_max_left _ _) ham, ?_, ?_⟩
    · intro e' he'
      rcases List.mem_cons.mp he' with h | h
      · rw [h]
        exact le_trans (le_max_right _ _) ham
      · exact hall e' h
    · rcases hmem with h | ⟨e', he', hse⟩
      · rcases max_choice a e.season with hmax | hmax
        · exact Or.inl (by rw [h, hmax])
        · exact Or.inr ⟨e, List.mem_cons_self e t, by rw [← hmax, ← h]⟩
      · exact Or.inr ⟨e', List.mem_cons_of_mem e he', hse⟩

/-- On a nonempty episodes table, `maxSeason` is the maximum of the
`season` values: an upper bound attained by some episode. -/
lemma maxSeason_spec (eps : List Episode) (h : eps ≠ []) :
    ∃ m, maxSeason eps = some m ∧
      (∀ e ∈ eps, e.season ≤ m) ∧ ∃ e ∈ eps, e.season = m := by
  match eps, h with
  | e :: t, _ =>
    obtain ⟨m, hm, ham, hall, hmem⟩ := foldl_maxSeason_some t e.season
    refine ⟨m, hm, ?_, ?_⟩
    · intro e' he'
      rcases List.mem_cons.mp he' with h' | h'
      · rw [h']
        exact ham
      · exact hall e' h'
    · rcases hmem with h' | ⟨e', he', hse⟩
      · exact ⟨e, List.mem_cons_self e t, h'.symm⟩
      · exact ⟨e', List.mem_cons_of_mem e he', hse⟩

/-- Claim C7: a GET request rooted at `/api/stats` answers with
`totalCharacters`, `totalEpisodes` and `totalQuotes` equal to the three
table lengths, the fixed version string `1.0.0`, and `seasons` equal to
the maximum `season` value across all episodes (for a nonempty episodes
table: an upper bound attained by some episode). -/
theorem stats_reports_counts_and_max_season (ds : Dataset) (q : QueryParams)
    (r : Nat) (rest : List String) (hne : ds.episodes ≠ []) :
    handleRequest ds .GET ("api" :: "stats" :: rest) q r =
      .ok (.statsResp ds.characters.length ds.episodes.length ds.quotes.length
        (maxSeason ds.episodes) "1.0.0") ∧
    ∃ m, maxSeason ds.episodes = some m ∧
      (∀ e ∈ ds.episodes, e.season ≤ m) ∧ ∃ e ∈ ds.episodes, e.season = m :=
  ⟨rfl, maxSeason_spec ds.episodes hne⟩

/-- Claim C7, witness: the sample dataset reports its table lengths, the
fixed version string, and maximal season 9. -/
theorem stats_reports_counts_and_max_season_witness :
    handleRequest ds1 .GET ["api", "stats"] qNone 0 =
      .ok (.statsResp 2 2 1 (some 9) "1.0.0") :=
  (stats_reports_counts_and_max_season ds1 qNone 0 [] (by decide)).1

/-- A decimal digit character is not whitespace. -/
lemma digit_not_whitespace (c : Char) (h : c.isDigit = true) :
    c.isWhitespace = false := by
  by_contra hws
  rw [Bool.not_eq_false] at hws
  have hcases : ((c = ' ' ∨ c = '\t') ∨ c = '\r') ∨ c = '\n' := by
    simpa [Char.isWhitespace] using hws
  rcases hcases with ((h' | h') | h') | h' <;> rw [h'] at h <;>
    exact absurd h (by decide)

/-- A decimal digit character differs from any non-digit character. -/
lemma digit_ne_nondigit (c d : Char) (h : c.isDigit = true)
    (hd : d.isDigit = false) : c ≠ d := by
  intro he
  rw [he, hd] at h
  exact Bool.noConfusion h

/-- Taking the leading digits of an all-digit list returns it whole. -/
lemma takeDigits_all_digits (l : List Char) (h : ∀ c ∈ l, c.isDigit = true) :
    takeDigits l = l := by
  induction l with
  | nil => rfl
  | cons c t ih =>
    simp only [takeDigits, if_pos (h c (List.mem_cons_self c t))]
    rw [ih (fun d hd => h d (List.mem_cons_of_mem c hd))]

/-- Taking the leading digits stops exactly at the first non-digit. -/
lemma takeDigits_append_stop (l : List Char) (h : ∀ c ∈ l, c.isDigit = true)
    (c0 : Char) (h0 : c0.isDigit = false) (rest : List Char) :
    takeDigits (l ++ c0 :: rest) = l := by
  induction l with
  | nil => simp [takeDigits, h0]
  | cons c t ih =>
    simp only [List.cons_append, takeDigits, if_pos (h c (List.mem_cons_self c t))]
    exact congrArg (List.cons c) (ih (fun d hd => h d (List.mem_cons_of_mem c hd)))

/-- Appending characters after the first non-digit does not change the
parsed digit core. -/
lemma parseIntCore_append_stop (l : List Char) (h : ∀ c ∈ l, c.isDigit = true)
    (c0 : Char) (h0 : c0.isDigit = false) (rest : List Char) :
    parseIntCore (l ++ c0 :: rest) = parseIntCore l := by
  simp only [parseIntCore, takeDigits_append_stop l h c0 h0 rest,
    takeDigits_all_digits l h]

/-- On a string starting with a decimal digit, `parseIntJS` neither trims
nor reads a sign: it goes straight to radix detection. -/
lemma parseIntJS_mk_digit_head (d : Char) (l : List Char) (hd : d.isDigit = true) :
    parseIntJS (String.mk (d :: l)) = parseIntAfterSign (d :: l) := by
  have hws : d.isWhitespace = false := digit_not_whitespace d hd
  have h1 : d ≠ '-' := digit_ne_nondigit d '-' hd (by decide)
  have h2 : d ≠ '+' := digit_ne_nondigit d '+' hd (by decide)
  simp [parseIntJS, List.dropWhile_cons, hws, h1, h2]

/-- A string starting with a decimal digit is not the `random` keyword. -/
lemma digit_head_ne_random (d : Char) (l : List Char) (hd : d.isDigit = true) :
    String.mk (d :: l) ≠ "random" := by
  intro h
  have hdata : d :: l = ['r', 'a', 'n', 'd', 'o', 'm'] := congrArg String.data h
  injection hdata with h1 _
  rw [h1] at hd
  exact absurd hd (by decide)

/-- Two non-`random` id segments that parse alike are answered alike by the
characters handler. -/
lemma handleCharacters_seg_congr (ds : Dataset) (seg1 seg2 : String)
    (s : Option String) (r : Nat) (h1 : seg1 ≠ "random") (h2 : seg2 ≠ "random")
    (hp : parseIntJS seg1 = parseIntJS seg2) :
    handleCharacters ds ["api", "characters", seg1] s r =
      handleCharacters ds ["api", "characters", seg2] s r := by
  rw [handleCharacters_id_branch ds seg1 s r h1,
    handleCharacters_id_branch ds seg2 s r h2, hp]

/-- Two non-`random` id segments that parse alike are answered alike by the
episodes handler. -/
lemma handleEpisodes_seg_congr (ds : Dataset) (seg1 seg2 : String)
    (sn s : Option String) (r : Nat) (h1 : seg1 ≠ "random") (h2 : seg2 ≠ "random")
    (hp : parseIntJS seg1 = parseIntJS seg2) :
    handleEpisodes ds ["api", "episodes", seg1] sn s r =
      handleEpisodes ds ["api", "episodes", seg2] sn s r := by
  rw [handleEpisodes_id_branch ds seg1 sn s r h1,
    handleEpisodes_id_branch ds seg2 sn s r h2, hp]

/-- Two non-`random` id segments that parse alike are answered alike by the
quotes handler. -/
lemma handleQuotes_seg_congr (ds : Dataset) (seg1 seg2 : String)
    (cq s : Option String) (r : Nat) (h1 : seg1 ≠ "random") (h2 : seg2 ≠ "random")
    (hp : parseIntJS seg1 = parseIntJS seg2) :
    handleQuotes ds ["api", "quotes", seg1] cq s r =
      handleQuotes ds ["api", "quotes", seg2] cq s r := by
  rw [handleQuotes_id_branch ds seg1 cq s r h1,
    handleQuotes_id_branch ds seg2 cq s r h2, hp]

/-- Appending characters from the first non-digit on does not change the
parsed value of a digit-led list, except through the hexadecimal prefix:
the excluded case is a digit run of exactly `0` followed by `x` or `X`. -/
lemma parseIntAfterSign_digit_stop (d : Char) (t : List Char) (c0 : Char)
    (restc : List Char) (hd : ∀ c ∈ d :: t, c.isDigit = true)
    (h0 : c0.isDigit = false)
    (hhex : d = '0' → t = [] → c0 ≠ 'x' ∧ c0 ≠ 'X') :
    parseIntAfterSign (d :: t ++ c0 :: restc) = parseIntAfterSign (d :: t) := by
  cases t with
  | nil =>
    have hone : parseIntAfterSign [d] = parseIntCore [d] := rfl
    have htwo : parseIntAfterSign (d :: c0 :: restc) =
        if d = '0' ∧ (c0 = 'x' ∨ c0 = 'X') then parseHexCore restc
        else parseIntCore (d :: c0 :: restc) := rfl
    simp only [List.cons_append, List.nil_append]
    rw [htwo, hone]
    by_cases hd0 : d = '0'
    · obtain ⟨hx, hX⟩ := hhex hd0 rfl
      rw [if_neg (by rintro ⟨-, h | h⟩; exacts [hx h, hX h])]
      exact parseIntCore_append_stop [d] hd c0 h0 restc
    · rw [if_neg (by rintro ⟨h, -⟩; exact hd0 h)]
      exact parseIntCore_append_stop [d] hd c0 h0 restc
  | cons t1 t2 =>
    have ht1 : t1.isDigit = true := hd t1 (by simp)
    have hx : t1 ≠ 'x' := digit_ne_nondigit t1 'x' ht1 (by decide)
    have hX : t1 ≠ 'X' := digit_ne_nondigit t1 'X' ht1 (by decide)
    have hL : parseIntAfterSign (d :: t1 :: (t2 ++ c0 :: restc)) =
        if d = '0' ∧ (t1 = 'x' ∨ t1 = 'X') then parseHexCore (t2 ++ c0 :: restc)
        else parseIntCore (d :: t1 :: (t2 ++ c0 :: restc)) := rfl
    have hR : parseIntAfterSign (d :: t1 :: t2) =
        if d = '0' ∧ (t1 = 'x' ∨ t1 = 'X') then parseHexCore t2
        else parseIntCore (d :: t1 :: t2) := rfl
    simp only [List.cons_append]
    rw [hL, hR, if_neg (by rintro ⟨-, h | h⟩; exacts [hx h, hX h]),
      if_neg (by rintro ⟨-, h | h⟩; exacts [hx h, hX h])]
    exact parseIntCore_append_stop (d :: t1 :: t2) hd c0 h0 restc

/-- Claim C10, counterexample: the segment `0x10` begins with the decimal
digit `0` followed by the non-digit `x`, but `parseInt` auto-detects the
hexadecimal prefix: the segment parses as 16, not as the leading integer
prefix 0, so the by-id lookup answers it differently from the digits-only
prefix `0` (`0x` alone is even `NaN`). -/
theorem hex_prefix_segment_not_prefix_lookup :
    parseIntJS "0x10" = some 16 ∧
    parseIntJS "0" = some 0 ∧
    parseIntJS "0x" = none ∧
    handleCharacters dsHex ["api", "characters", "0x10"] none 0 =
      .charWithQuotes char16 (relatedQuotes dsHex.quotes char16) ∧
    handleCharacters dsHex ["api", "characters", "0x10"] none 0 ≠
      handleCharacters dsHex ["api", "characters", "0"] none 0 := by
  refine ⟨rfl, rfl, rfl, rfl, ?_⟩
  decide

/-- Claim C10, amended: an id path segment made of decimal digits followed
by a non-digit character (and anything after it) — except when the digit
run is exactly `0` and the next character is `x` or `X`, which `parseInt`
reads as a hexadecimal prefix — parses to the leading integer prefix, and
the by-id lookup of each of the three resources answers it exactly as it
answers the digits-only segment, so such a segment can hit a record rather
than fall to `not found`. -/
theorem digit_prefix_id_segment (ds : Dataset) (d : Char) (t : List Char)
    (c0 : Char) (restc : List Char) (s1 s2 : Option String) (r : Nat)
    (hd : ∀ c ∈ d :: t, c.isDigit = true) (h0 : c0.isDigit = false)
    (hhex : d = '0' → t = [] → c0 ≠ 'x' ∧ c0 ≠ 'X') :
    parseIntJS (String.mk (d :: t ++ c0 :: restc)) = parseIntJS (String.mk (d :: t)) ∧
    handleCharacters ds ["api", "characters", String.mk (d :: t ++ c0 :: restc)] s1 r =
      handleCharacters ds ["api", "characters", String.mk (d :: t)] s1 r ∧
    handleEpisodes ds ["api", "episodes", String.mk (d :: t ++ c0 :: restc)] s2 s1 r =
      handleEpisodes ds ["api", "episodes", String.mk (d :: t)] s2 s1 r ∧
    handleQuotes ds ["api", "quotes", String.mk (d :: t ++ c0 :: restc)] s2 s1 r =
      handleQuotes ds ["api", "quotes", String.mk (d :: t)] s2 s1 r := by
  have hd0 : d.isDigit = true := hd d (List.mem_cons_self d t)
  have hparse : parseIntJS (String.mk (d :: t ++ c0 :: restc)) =
      parseIntJS (String.mk (d :: t)) := by
    rw [List.cons_append, parseIntJS_mk_digit_head d (t ++ c0 :: restc) hd0,
      parseIntJS_mk_digit_head d t hd0]
    exact parseIntAfterSign_digit_stop d t c0 restc hd h0 hhex
  have hr1 : String.mk (d :: t ++ c0 :: restc) ≠ "random" :=
    digit_head_ne_random d (t ++ c0 :: restc) hd0
  have hr2 : String.mk (d :: t) ≠ "random" := digit_head_ne_random d t hd0
  exact ⟨hparse,
    handleCharacters_seg_congr ds _ _ s1 r hr1 hr2 hparse,
    handleEpisodes_seg_congr ds _ _ s2 s1 r hr1 hr2 hparse,
    handleQuotes_seg_congr ds _ _ s2 s1 r hr1 hr2 hparse⟩

/-- Claim C10, witness: the segment `5abc` parses as 5 and is answered
exactly like the segment `5`, hitting character 5 of the sample dataset
rather than `not found`. -/
theorem digit_prefix_id_segment_witness :
    parseIntJS "5abc" = parseIntJS "5" ∧
    handleCharacters ds1 ["api", "characters", "5abc"] none 0 =
      handleCharacters ds1 ["api", "characters", "5"] none 0 ∧
    handleCharacters ds1 ["api", "characters", "5abc"] none 0 =
      .charWithQuotes char5 (relatedQuotes ds1.quotes char5) := by
  have h := digit_prefix_id_segment ds1 '5' [] 'a' ['b', 'c'] none none 0
    (by decide) (by decide) (by decide)
  exact ⟨h.1, h.2.1, rfl⟩
